import Mathlib

/-!
Handler layer of `internal/pkg/app/objectrequests.go`.

A shallow embedding of the HTTP handlers of the goods/basket service.

* The repository (`a.repo`) is an external collaborator: it is a record of
  state-passing functions over an arbitrary store type `σ`, so a theorem stated
  for every `Application σ` covers every (deterministic) repository behaviour.
* A handler run yields the ordered log of what happened to the repository and
  to the response (repository calls, `gCtx.IndentedJSON` writes, and the abort
  that `gCtx.BindJSON` performs itself when binding fails), the final store, and
  whether the handler returned or hit a Go runtime panic.
* `strconv.Atoi`, `gin.Context.Param`, `gin.Context.BindJSON` and the
  `int → uint` conversion come from outside the repository and are modelled
  after their documented behaviour on a 64-bit platform.
-/

namespace Hac

/-! ## Data model -/

/-- Response envelope `AnswerJSON{Status, Description}` used by every handler. -/
structure AnswerJSON where
  Status : String
  Description : String
deriving DecidableEq, Repr

/-- Modelled from the spec: `ds.Goods` is declared outside the handler file.
The handlers read `Price` and `Quantity` (compared with `0`); the identifier and
the remaining descriptive fields are carried along unchanged. -/
structure Goods where
  ID : Nat
  Price : Int
  Quantity : Int
  Descr : String
deriving DecidableEq, Repr

/-- Modelled from the spec: `ds.Basket`, an association between a user and a
good with a quantity. The handlers never inspect its fields. -/
structure Basket where
  ID : Nat
  IdUser : Nat
  IdGood : Nat
  Quantity : Int
deriving DecidableEq, Repr

/-- Modelled from the spec: `ds.Users`, of which the handlers read `Login`. -/
structure Users where
  ID : Nat
  Login : String
deriving DecidableEq, Repr

/-- A Go `error` value: `none` is `nil`, `some msg` is a non-nil error whose
`Error()` text is `msg`. -/
abbrev GoError := Option String

/-! ## Status codes of `net/http` used by the handlers -/

def StatusOK : Nat := 200
def StatusBadRequest : Nat := 400
def StatusForbidden : Nat := 403
def StatusRequestedRangeNotSatisfiable : Nat := 416
def StatusInternalServerError : Nat := 500

/-! ## Library functions -/

/-- Value of a run of decimal digits, most significant first, continuing from
the accumulator; `none` as soon as a character is not `'0'..'9'`. -/
def digitsFrom : Nat → List Char → Option Nat
  | acc, [] => some acc
  | acc, c :: cs =>
    if '0' ≤ c ∧ c ≤ '9' then digitsFrom (acc * 10 + (c.toNat - '0'.toNat)) cs else none

/-- Unsigned part of a decimal literal: at least one digit, digits only. -/
def parseDigits : List Char → Option Nat
  | [] => none
  | cs => digitsFrom 0 cs

/-- Go's `strconv.Atoi` with a 64-bit `int`: an optional sign `+` or `-`, then
one or more decimal digits, the value within `[-2^63, 2^63 - 1]`. `none` stands
for a non-nil error (malformed or out of range), `some n` for `(n, nil)`. -/
def Atoi (s : String) : Option Int :=
  match s.toList with
  | [] => none
  | c :: rest =>
    let neg := c = '-'
    let ds := if c = '-' ∨ c = '+' then rest else c :: rest
    match parseDigits ds with
    | none => none
    | some u =>
      let n : Int := if neg then -(u : Int) else (u : Int)
      if -(2 : Int) ^ 63 ≤ n ∧ n < (2 : Int) ^ 63 then some n else none

/-- Go's conversion `uint(n)` of an `int` on a 64-bit platform: the value
modulo `2^64`. -/
def uint (n : Int) : Nat := (n % (2 : Int) ^ 64).toNat

/-! ## Request context -/

/-- The part of `gin.Context` the handlers read. `Params` are the URL
parameters bound by the router, by name. The three `json…` fields are the
outcome of `gCtx.BindJSON(&params)` for the three target types: `none` when
binding returns an error, `some v` when the body decodes to `v`. -/
structure Context where
  Params : List (String × String)
  jsonGoods : Option Goods
  jsonBasket : Option Basket
  jsonUsers : Option Users

/-- Lookup of a URL parameter by name: the value of the first entry with that
key, and the empty string when there is none (`gin.Context.Param`). -/
def paramLookup : List (String × String) → String → String
  | [], _ => ""
  | (k, v) :: rest, key => if k = key then v else paramLookup rest key

/-- The call `gCtx.Param(key)`. -/
def Context.Param (gCtx : Context) (key : String) : String :=
  paramLookup gCtx.Params key

/-! ## Repository -/

/-- The repository contract consumed by the handlers, over a store of type `σ`.
Each method takes the current store and returns its Go results together with
the new store. Methods that receive a pointer (`CreateProduct`,
`CreateBasketRow`) also return the record as they leave it. -/
structure Repository (σ : Type) where
  GetObjectsByFloor : Int → σ → (List Goods × GoError) × σ
  GetProductByID : Nat → σ → (Goods × GoError) × σ
  ChangeProduct : Nat → Int → σ → GoError × σ
  CreateProduct : Goods → σ → (Goods × GoError) × σ
  DeleteProduct : Nat → σ → GoError × σ
  CreateBasketRow : Basket → σ → (Basket × GoError) × σ
  GetIdByLogin : String → σ → (Nat × GoError) × σ
  GetBasket : Nat → σ → (List Basket × GoError) × σ

/-- The receiver `a *Application`; the handlers use only `a.repo`. -/
structure Application (σ : Type) where
  repo : Repository σ

/-! ## Observable behaviour of a handler run -/

/-- A repository call with its arguments. -/
inductive Call where
  | GetObjectsByFloor (floor : Int)
  | GetProductByID (id : Nat)
  | ChangeProduct (id : Nat) (price : Int)
  | CreateProduct (g : Goods)
  | DeleteProduct (id : Nat)
  | CreateBasketRow (b : Basket)
  | GetIdByLogin (login : String)
  | GetBasket (id : Nat)
deriving DecidableEq, Repr

/-- The value handed to `gCtx.IndentedJSON` / `gCtx.String`. -/
inductive Body where
  | answer (a : AnswerJSON)
  | goods (g : Goods)
  | goodsList (gs : List Goods)
  | basketList (bs : List Basket)
  | text (t : String)
deriving DecidableEq, Repr

/-- One response write by a handler: the status code and the value it passes
to `gCtx.IndentedJSON` / `gCtx.String`. -/
structure Response where
  status : Nat
  body : Body
deriving DecidableEq, Repr

/-- One step of a handler run visible from outside. `abort status` is what
`gCtx.BindJSON` does by itself when binding fails, before it returns the error
to the handler: it is `MustBindWith`, which aborts the request with
`AbortWithError(http.StatusBadRequest, err)`, and that sets the status and
sends the response header at once, without a body. -/
inductive Event where
  | call (c : Call)
  | write (r : Response)
  | abort (status : Nat)
deriving DecidableEq, Repr

/-- How the handler function ended. -/
inductive Outcome where
  | returned
  | panicked
deriving DecidableEq, Repr

/-- Result of running a handler: the log in program order, the store after the
run, and the outcome. -/
structure Run (σ : Type) where
  log : List Event
  store : σ
  outcome : Outcome

/-- The responses written by the handler during a run (its `IndentedJSON` /
`String` calls with the status it passes), in order. -/
def responses : List Event → List Response
  | [] => []
  | Event.write r :: es => r :: responses es
  | Event.call _ :: es => responses es
  | Event.abort _ :: es => responses es

/-- The repository calls made during a run, in order. -/
def calls : List Event → List Call
  | [] => []
  | Event.call c :: es => c :: calls es
  | Event.write _ :: es => calls es
  | Event.abort _ :: es => calls es

/-- The status code of the HTTP response a run produces: the header is sent
once, by the first event that touches the response, an abort or a write; a
status passed to a later write no longer changes it. `none` when the run never
touches the response. -/
def wireStatus : List Event → Option Nat
  | [] => none
  | Event.abort st :: _ => some st
  | Event.write r :: _ => some r.status
  | Event.call _ :: es => wireStatus es

/-- The write `gCtx.IndentedJSON(status, AnswerJSON{Status, Description})`. -/
def envelope (status : Nat) (st descr : String) : Event :=
  Event.write ⟨status, Body.answer ⟨st, descr⟩⟩

/-! ## Handlers -/

/-- Handler `DeleteProduct`: parse `id`, call the repository, then classify the error.
`err.Error()` is evaluated before the `err != nil` test, so a nil error is a
nil dereference: the run panics at that point. -/
def Application.DeleteProduct {σ : Type} (a : Application σ) (gCtx : Context) (s : σ) :
    Run σ :=
  let id_product := gCtx.Param "id"
  match Atoi id_product with
  | none =>
    ⟨[envelope StatusRequestedRangeNotSatisfiable "error" "id must be integer"], s,
      Outcome.returned⟩
  | some id_product_int =>
    match a.repo.DeleteProduct (uint id_product_int) s with
    | (none, s1) =>
      ⟨[Event.call (Call.DeleteProduct (uint id_product_int))], s1, Outcome.panicked⟩
    | (some msg, s1) =>
      if msg = "record not found" then
        ⟨[Event.call (Call.DeleteProduct (uint id_product_int)),
          envelope StatusRequestedRangeNotSatisfiable "error" "id not found"], s1,
          Outcome.returned⟩
      else
        ⟨[Event.call (Call.DeleteProduct (uint id_product_int)),
          envelope StatusInternalServerError "error" "cant delete row"], s1,
          Outcome.returned⟩

/-- Handler `Ping`: greets the `name` segment, status 200. -/
def Application.Ping {σ : Type} (_a : Application σ) (gCtx : Context) (s : σ) : Run σ :=
  let name := gCtx.Param "name"
  ⟨[Event.write ⟨StatusOK, Body.text ("Hello " ++ name)⟩], s, Outcome.returned⟩

/-- Handler `GetObjectsByFloor`: parse `floor`, list the goods of that floor. -/
def Application.GetObjectsByFloor {σ : Type} (a : Application σ) (gCtx : Context) (s : σ) :
    Run σ :=
  let floor := gCtx.Param "floor"
  match Atoi floor with
  | none =>
    ⟨[envelope StatusInternalServerError "error" "cant convert id to int"], s,
      Outcome.returned⟩
  | some floor_int =>
    match a.repo.GetObjectsByFloor floor_int s with
    | ((_, some _), s1) =>
      ⟨[Event.call (Call.GetObjectsByFloor floor_int),
        envelope StatusInternalServerError "error" "cant get all rows"], s1, Outcome.returned⟩
    | ((objects, none), s1) =>
      ⟨[Event.call (Call.GetObjectsByFloor floor_int),
        Event.write ⟨StatusOK, Body.goodsList objects⟩], s1, Outcome.returned⟩

/-- Handler `GetObjectById`: parse `id`, convert it with `uint(...)`, fetch the product. -/
def Application.GetObjectById {σ : Type} (a : Application σ) (gCtx : Context) (s : σ) :
    Run σ :=
  let id_product := gCtx.Param "id"
  match Atoi id_product with
  | none =>
    ⟨[envelope StatusInternalServerError "error" "cant convert id to int"], s,
      Outcome.returned⟩
  | some id_product_int =>
    match a.repo.GetProductByID (uint id_product_int) s with
    | ((_, some _), s1) =>
      ⟨[Event.call (Call.GetProductByID (uint id_product_int)),
        envelope StatusInternalServerError "error" "cant get product by id"], s1,
        Outcome.returned⟩
    | ((product, none), s1) =>
      ⟨[Event.call (Call.GetProductByID (uint id_product_int)),
        Event.write ⟨StatusOK, Body.goods product⟩], s1, Outcome.returned⟩

/-- Handler `ChangePrice`: bind the body, parse the URL parameter named `id_good`,
reject a zero price, update the price, re-fetch the product. -/
def Application.ChangePrice {σ : Type} (a : Application σ) (gCtx : Context) (s : σ) :
    Run σ :=
  match gCtx.jsonGoods with
  | none =>
    ⟨[Event.abort StatusBadRequest,
      envelope StatusRequestedRangeNotSatisfiable "error" "cant parse json, "], s,
      Outcome.returned⟩
  | some params =>
    let id_product := gCtx.Param "id_good"
    match Atoi id_product with
    | none =>
      ⟨[envelope StatusRequestedRangeNotSatisfiable "error" "id must be integer"], s,
        Outcome.returned⟩
    | some id_product_int =>
      if params.Price = 0 then
        ⟨[envelope StatusRequestedRangeNotSatisfiable "error" "product cant cost 0"], s,
          Outcome.returned⟩
      else
        match a.repo.ChangeProduct (uint id_product_int) params.Price s with
        | (some _, s1) =>
          ⟨[Event.call (Call.ChangeProduct (uint id_product_int) params.Price),
            envelope StatusInternalServerError "error" "cant change price"], s1,
            Outcome.returned⟩
        | (none, s1) =>
          match a.repo.GetProductByID (uint id_product_int) s1 with
          | ((_, some _), s2) =>
            ⟨[Event.call (Call.ChangeProduct (uint id_product_int) params.Price),
              Event.call (Call.GetProductByID (uint id_product_int)),
              envelope StatusInternalServerError "error" "cant get product by id"], s2,
              Outcome.returned⟩
          | ((product, none), s2) =>
            ⟨[Event.call (Call.ChangeProduct (uint id_product_int) params.Price),
              Event.call (Call.GetProductByID (uint id_product_int)),
              Event.write ⟨StatusOK, Body.goods product⟩], s2, Outcome.returned⟩

/-- The two validation blocks of `PostProduct`: each writes its envelope and
falls through (neither has a `return`). -/
def postProductChecks (params : Goods) : List Event :=
  (if params.Price ≤ 0 then
      [envelope StatusRequestedRangeNotSatisfiable "error" "price cant be <= 0"]
    else []) ++
  (if params.Quantity ≤ 0 then
      [envelope StatusRequestedRangeNotSatisfiable "error" "quantity cant be <= 0"]
    else [])

/-- Handler `PostProduct`: bind the body, run the two checks, call
`a.repo.CreateProduct(&params)`, then serialise `params` as it is after the call. -/
def Application.PostProduct {σ : Type} (a : Application σ) (gCtx : Context) (s : σ) :
    Run σ :=
  match gCtx.jsonGoods with
  | none =>
    ⟨[Event.abort StatusBadRequest,
      envelope StatusRequestedRangeNotSatisfiable "error" "cant parse json"], s,
      Outcome.returned⟩
  | some params =>
    match a.repo.CreateProduct params s with
    | ((_, some _), s1) =>
      ⟨postProductChecks params ++
        [Event.call (Call.CreateProduct params),
         envelope StatusInternalServerError "error" "cant create product row"], s1,
        Outcome.returned⟩
    | ((params1, none), s1) =>
      ⟨postProductChecks params ++
        [Event.call (Call.CreateProduct params),
         Event.write ⟨StatusOK, Body.goods params1⟩], s1, Outcome.returned⟩

/-- Handler `AddBasketRow`: bind the body, create the basket row. -/
def Application.AddBasketRow {σ : Type} (a : Application σ) (gCtx : Context) (s : σ) :
    Run σ :=
  match gCtx.jsonBasket with
  | none =>
    ⟨[Event.abort StatusBadRequest,
      envelope StatusRequestedRangeNotSatisfiable "error" "cant parse json"], s,
      Outcome.returned⟩
  | some params =>
    match a.repo.CreateBasketRow params s with
    | ((_, some _), s1) =>
      ⟨[Event.call (Call.CreateBasketRow params),
        envelope StatusInternalServerError "error" "good cant be added to basket"], s1,
        Outcome.returned⟩
    | ((_, none), s1) =>
      ⟨[Event.call (Call.CreateBasketRow params),
        envelope StatusOK "successful" "good was added to basket"], s1, Outcome.returned⟩

/-- Handler `GetBasket`: bind the body, resolve the login, fetch the basket
rows. When binding fails, `BindJSON` has already aborted the request with 400
by the time the handler writes its 416 envelope. -/
def Application.GetBasket {σ : Type} (a : Application σ) (gCtx : Context) (s : σ) :
    Run σ :=
  match gCtx.jsonUsers with
  | none =>
    ⟨[Event.abort StatusBadRequest,
      envelope StatusRequestedRangeNotSatisfiable "error" "cant parse json"], s,
      Outcome.returned⟩
  | some params =>
    let login_user := params.Login
    match a.repo.GetIdByLogin login_user s with
    | ((_, some _), s1) =>
      ⟨[Event.call (Call.GetIdByLogin login_user),
        envelope StatusForbidden "error" "cant find user with this login"], s1,
        Outcome.returned⟩
    | ((id_user, none), s1) =>
      match a.repo.GetBasket id_user s1 with
      | ((_, some _), s2) =>
        ⟨[Event.call (Call.GetIdByLogin login_user), Event.call (Call.GetBasket id_user),
          envelope StatusInternalServerError "error" "cant get rows in basket"], s2,
          Outcome.returned⟩
      | ((basket, none), s2) =>
        ⟨[Event.call (Call.GetIdByLogin login_user), Event.call (Call.GetBasket id_user),
          Event.write ⟨StatusOK, Body.basketList basket⟩], s2, Outcome.returned⟩

/-! ## Sample repositories and requests

Concrete collaborators over a trivial store, used to evaluate the handlers. -/

/-- A repository in which every call succeeds; `CreateProduct` assigns the
identifier `42` to the record it is handed, as a store that generates primary
keys does. -/
def okRepo : Repository Unit where
  GetObjectsByFloor := fun _ s => (([], none), s)
  GetProductByID := fun id s => ((⟨id, 10, 1, "item"⟩, none), s)
  ChangeProduct := fun _ _ s => (none, s)
  CreateProduct := fun g s => (({ g with ID := 42 }, none), s)
  DeleteProduct := fun _ s => (none, s)
  CreateBasketRow := fun b s => ((b, none), s)
  GetIdByLogin := fun _ s => ((1, none), s)
  GetBasket := fun _ s => (([], none), s)

/-- A repository in which every call fails; the message is the one the store
reports for an absent row. -/
def failRepo : Repository Unit where
  GetObjectsByFloor := fun _ s => (([], some "record not found"), s)
  GetProductByID := fun _ s => ((⟨0, 0, 0, ""⟩, some "record not found"), s)
  ChangeProduct := fun _ _ s => (some "record not found", s)
  CreateProduct := fun g s => ((g, some "record not found"), s)
  DeleteProduct := fun _ s => (some "record not found", s)
  CreateBasketRow := fun b s => ((b, some "record not found"), s)
  GetIdByLogin := fun _ s => ((0, some "record not found"), s)
  GetBasket := fun _ s => (([], some "record not found"), s)

/-- A repository whose store is the list of the records created so far:
`CreateProduct` gives the record the next identifier, appends it and succeeds
whatever its price and quantity are; `GetProductByID` looks the identifier up;
the other methods leave the store alone. -/
def memRepo : Repository (List Goods) where
  GetObjectsByFloor := fun _ s => ((s, none), s)
  GetProductByID := fun id s =>
    match s.find? (fun g => decide (g.ID = id)) with
    | some g => ((g, none), s)
    | none => ((⟨0, 0, 0, ""⟩, some "record not found"), s)
  ChangeProduct := fun _ _ s => (none, s)
  CreateProduct := fun g s =>
    (({ g with ID := s.length + 1 }, none), s ++ [{ g with ID := s.length + 1 }])
  DeleteProduct := fun _ s => (some "record not found", s)
  CreateBasketRow := fun b s => ((b, none), s)
  GetIdByLogin := fun _ s => ((1, none), s)
  GetBasket := fun _ s => (([], none), s)

/-- A request with the given URL parameters and no decodable body. -/
def ctxParams (ps : List (String × String)) : Context := ⟨ps, none, none, none⟩

/-- A request with the given URL parameters whose body decodes to `g`. -/
def ctxGoods (ps : List (String × String)) (g : Goods) : Context := ⟨ps, some g, none, none⟩

/-- A request whose body decodes to the user `u`. -/
def ctxUsers (u : Users) : Context := ⟨[], none, none, some u⟩

/-! ## Facts about the library model -/

/-- A successful `Atoi` yields a value of the 64-bit `int` range. -/
theorem Atoi_range (str : String) (n : Int) (h : Atoi str = some n) :
    -(2 : Int) ^ 63 ≤ n ∧ n < (2 : Int) ^ 63 := by
  unfold Atoi at h
  split at h
  · exact absurd h (by simp)
  · dsimp only at h
    split at h
    · exact absurd h (by simp)
    · simp only [Option.ite_none_right_eq_some, Option.some.injEq] at h
      obtain ⟨hr, hn⟩ := h
      rw [← hn]
      exact hr

/-- The empty string is not an integer for `Atoi`. -/
theorem Atoi_empty : Atoi "" = none := by decide

/-- On the 64-bit `int` range, `uint` keeps a non-negative value and adds
`2^64` to a negative one. -/
theorem uint_of_neg (n : Int) (hlo : -(2 : Int) ^ 63 ≤ n) (hneg : n < 0) :
    ((uint n : Nat) : Int) = n + (2 : Int) ^ 64 := by
  unfold uint
  have h1 : n % (2 : Int) ^ 64 = n + (2 : Int) ^ 64 := by
    have h2 : (n + (2 : Int) ^ 64) % (2 : Int) ^ 64 = n + (2 : Int) ^ 64 :=
      Int.emod_eq_of_lt (by omega) (by omega)
    rw [← h2, Int.add_emod_self]
  rw [h1]
  exact Int.toNat_of_nonneg (by omega)

/-- On non-negative values `uint` is the identity (within the `int` range). -/
theorem uint_of_nonneg (n : Int) (h0 : 0 ≤ n) (hhi : n < (2 : Int) ^ 63) :
    ((uint n : Nat) : Int) = n := by
  unfold uint
  rw [Int.emod_eq_of_lt h0 (by omega)]
  exact Int.toNat_of_nonneg h0

/-! ## DeleteProduct -/

/-- Whenever `id` parses and the repository reports no error, `DeleteProduct`
panics right after the repository call and writes nothing. -/
theorem DeleteProduct_nil_error {σ : Type} (a : Application σ) (gCtx : Context) (s s1 : σ)
    (n : Int) (hid : Atoi (gCtx.Param "id") = some n)
    (hnil : a.repo.DeleteProduct (uint n) s = (none, s1)) :
    (a.DeleteProduct gCtx s).outcome = Outcome.panicked ∧
      (a.DeleteProduct gCtx s).log = [Event.call (Call.DeleteProduct (uint n))] := by
  simp only [Application.DeleteProduct, hid, hnil, and_self]

/-- C1 (fails on the code): for `DELETE /goods/1` with a repository whose
`DeleteProduct` returns nil, the handler does not complete normally and writes
no response; it stops with a panic after the repository call, so the
200 "row was deleted" envelope is never written. -/
theorem C1_DeleteProduct_nil_error_panics :
    Atoi ((ctxParams [("id", "1")]).Param "id") = some 1 ∧
    okRepo.DeleteProduct (uint 1) () = (none, ()) ∧
    ((⟨okRepo⟩ : Application Unit).DeleteProduct (ctxParams [("id", "1")]) ()).outcome
      = Outcome.panicked ∧
    responses ((⟨okRepo⟩ : Application Unit).DeleteProduct (ctxParams [("id", "1")]) ()).log
      = [] ∧
    responses ((⟨okRepo⟩ : Application Unit).DeleteProduct (ctxParams [("id", "1")]) ()).log
      ≠ [⟨StatusOK, Body.answer ⟨"successful", "row was deleted"⟩⟩] := by
  decide

/-- C4: when `id` parses and the repository's `DeleteProduct` returns a non-nil
error with text `msg`, the handler returns having written exactly one response:
416 "id not found" if and only if `msg` is "record not found", otherwise
500 "cant delete row"; the envelope's Status is "error" either way. -/
theorem C4_DeleteProduct_error_classification {σ : Type} (a : Application σ)
    (gCtx : Context) (s s1 : σ) (n : Int) (msg : String)
    (hid : Atoi (gCtx.Param "id") = some n)
    (herr : a.repo.DeleteProduct (uint n) s = (some msg, s1)) :
    (a.DeleteProduct gCtx s).outcome = Outcome.returned ∧
    responses (a.DeleteProduct gCtx s).log =
      [if msg = "record not found" then
          ⟨StatusRequestedRangeNotSatisfiable, Body.answer ⟨"error", "id not found"⟩⟩
        else ⟨StatusInternalServerError, Body.answer ⟨"error", "cant delete row"⟩⟩] ∧
    (responses (a.DeleteProduct gCtx s).log =
        [⟨StatusRequestedRangeNotSatisfiable, Body.answer ⟨"error", "id not found"⟩⟩]
      ↔ msg = "record not found") ∧
    (responses (a.DeleteProduct gCtx s).log =
        [⟨StatusInternalServerError, Body.answer ⟨"error", "cant delete row"⟩⟩]
      ↔ msg ≠ "record not found") ∧
    calls (a.DeleteProduct gCtx s).log = [Call.DeleteProduct (uint n)] := by
  by_cases hm : msg = "record not found"
  · simp [Application.DeleteProduct, hid, herr, hm, responses, calls, envelope,
      StatusRequestedRangeNotSatisfiable, StatusInternalServerError]
  · simp [Application.DeleteProduct, hid, herr, hm, responses, calls, envelope,
      StatusRequestedRangeNotSatisfiable, StatusInternalServerError]

/-- C4 at `DELETE /goods/999` with a repository that reports "record not found". -/
theorem C4_DeleteProduct_error_classification_witness :
    (((⟨failRepo⟩ : Application Unit).DeleteProduct (ctxParams [("id", "999")]) ()).outcome
      = Outcome.returned ∧
    responses ((⟨failRepo⟩ : Application Unit).DeleteProduct (ctxParams [("id", "999")]) ()).log =
      [if "record not found" = "record not found" then
          ⟨StatusRequestedRangeNotSatisfiable, Body.answer ⟨"error", "id not found"⟩⟩
        else ⟨StatusInternalServerError, Body.answer ⟨"error", "cant delete row"⟩⟩] ∧
    (responses ((⟨failRepo⟩ : Application Unit).DeleteProduct (ctxParams [("id", "999")]) ()).log =
        [⟨StatusRequestedRangeNotSatisfiable, Body.answer ⟨"error", "id not found"⟩⟩]
      ↔ "record not found" = "record not found") ∧
    (responses ((⟨failRepo⟩ : Application Unit).DeleteProduct (ctxParams [("id", "999")]) ()).log =
        [⟨StatusInternalServerError, Body.answer ⟨"error", "cant delete row"⟩⟩]
      ↔ "record not found" ≠ "record not found") ∧
    calls ((⟨failRepo⟩ : Application Unit).DeleteProduct (ctxParams [("id", "999")]) ()).log
      = [Call.DeleteProduct (uint 999)]) :=
  C4_DeleteProduct_error_classification ⟨failRepo⟩ (ctxParams [("id", "999")]) () () 999
    "record not found" (by decide) (by decide)

/-! ## ChangePrice -/

/-- C2: when the body decodes to a Goods with `Price = 0`, whatever the URL
parameters are, `ChangePrice` returns having written a single 416 envelope with
Status "error", without any repository call and with the store untouched. -/
theorem C2_ChangePrice_zero_price_rejected {σ : Type} (a : Application σ) (gCtx : Context)
    (s : σ) (g : Goods) (hbody : gCtx.jsonGoods = some g) (hprice : g.Price = 0) :
    (∃ descr : String,
      (a.ChangePrice gCtx s).log =
        [Event.write ⟨StatusRequestedRangeNotSatisfiable, Body.answer ⟨"error", descr⟩⟩]) ∧
    calls (a.ChangePrice gCtx s).log = [] ∧
    (a.ChangePrice gCtx s).store = s ∧
    (a.ChangePrice gCtx s).outcome = Outcome.returned := by
  unfold Application.ChangePrice
  rw [hbody]
  dsimp only
  cases hparse : Atoi (gCtx.Param "id_good") with
  | none => exact ⟨⟨"id must be integer", rfl⟩, rfl, rfl, rfl⟩
  | some n =>
    dsimp only
    rw [if_pos hprice]
    exact ⟨⟨"product cant cost 0", rfl⟩, rfl, rfl, rfl⟩

/-- C2 at `PUT /goods/7` with body `Price = 0`, the segment bound as `id_good`. -/
theorem C2_ChangePrice_zero_price_rejected_witness :
    (∃ descr : String,
      ((⟨okRepo⟩ : Application Unit).ChangePrice
          (ctxGoods [("id_good", "7")] ⟨0, 0, 3, "tea"⟩) ()).log =
        [Event.write ⟨StatusRequestedRangeNotSatisfiable, Body.answer ⟨"error", descr⟩⟩]) ∧
    calls ((⟨okRepo⟩ : Application Unit).ChangePrice
        (ctxGoods [("id_good", "7")] ⟨0, 0, 3, "tea"⟩) ()).log = [] ∧
    ((⟨okRepo⟩ : Application Unit).ChangePrice
        (ctxGoods [("id_good", "7")] ⟨0, 0, 3, "tea"⟩) ()).store = () ∧
    ((⟨okRepo⟩ : Application Unit).ChangePrice
        (ctxGoods [("id_good", "7")] ⟨0, 0, 3, "tea"⟩) ()).outcome = Outcome.returned :=
  C2_ChangePrice_zero_price_rejected ⟨okRepo⟩ (ctxGoods [("id_good", "7")] ⟨0, 0, 3, "tea"⟩) ()
    ⟨0, 0, 3, "tea"⟩ rfl rfl

/-- The update flow of `ChangePrice`, keyed on the URL parameter the handler
reads (`id_good`): with a parsed body, an integer `id_good` and a non-zero
price, the handler calls `ChangeProduct (uint n) price`; on failure it answers
500; otherwise it calls `GetProductByID (uint n)` on the updated store and
answers 500 on failure and 200 with the fetched product on success. -/
theorem ChangePrice_update_flow {σ : Type} (a : Application σ) (gCtx : Context) (s : σ)
    (g : Goods) (n : Int) (hbody : gCtx.jsonGoods = some g)
    (hid : Atoi (gCtx.Param "id_good") = some n) (hprice : g.Price ≠ 0) :
    (a.ChangePrice gCtx s).log =
      (match a.repo.ChangeProduct (uint n) g.Price s with
        | (some _, _) =>
          [Event.call (Call.ChangeProduct (uint n) g.Price),
            envelope StatusInternalServerError "error" "cant change price"]
        | (none, s1) =>
          match a.repo.GetProductByID (uint n) s1 with
          | ((_, some _), _) =>
            [Event.call (Call.ChangeProduct (uint n) g.Price),
              Event.call (Call.GetProductByID (uint n)),
              envelope StatusInternalServerError "error" "cant get product by id"]
          | ((product, none), _) =>
            [Event.call (Call.ChangeProduct (uint n) g.Price),
              Event.call (Call.GetProductByID (uint n)),
              Event.write ⟨StatusOK, Body.goods product⟩]) := by
  unfold Application.ChangePrice
  rw [hbody]
  dsimp only
  rw [hid]
  dsimp only
  rw [if_neg hprice]
  rcases hc : a.repo.ChangeProduct (uint n) g.Price s with ⟨e, s1⟩
  cases e with
  | some m => rfl
  | none =>
    dsimp only
    rcases hg : a.repo.GetProductByID (uint n) s1 with ⟨⟨p, e2⟩, s2⟩
    cases e2 <;> rfl

/-- C3 (fails on the code): for `PUT /goods/7`, the segment bound to the path
parameter `id` as the route `/goods/{id}` names it, with a body that decodes to
`Price = 5`, the handler reads the parameter `id_good` instead, finds the
empty string, and answers 416 "id must be integer" without calling
`ChangeProduct` or `GetProductByID`, although every repository call would
succeed. -/
theorem C3_ChangePrice_reads_id_good :
    Atoi ((ctxGoods [("id", "7")] ⟨0, 5, 3, "tea"⟩).Param "id") = some 7 ∧
    (ctxGoods [("id", "7")] ⟨0, 5, 3, "tea"⟩).jsonGoods = some ⟨0, 5, 3, "tea"⟩ ∧
    (⟨0, 5, 3, "tea"⟩ : Goods).Price ≠ 0 ∧
    (ctxGoods [("id", "7")] ⟨0, 5, 3, "tea"⟩).Param "id_good" = "" ∧
    ((⟨okRepo⟩ : Application Unit).ChangePrice (ctxGoods [("id", "7")] ⟨0, 5, 3, "tea"⟩) ()).log
      = [envelope StatusRequestedRangeNotSatisfiable "error" "id must be integer"] ∧
    calls ((⟨okRepo⟩ : Application Unit).ChangePrice
        (ctxGoods [("id", "7")] ⟨0, 5, 3, "tea"⟩) ()).log = [] ∧
    ((⟨okRepo⟩ : Application Unit).GetObjectById (ctxParams [("id", "7")]) ()).log
      = [Event.call (Call.GetProductByID 7),
          Event.write ⟨StatusOK, Body.goods ⟨7, 10, 1, "item"⟩⟩] := by
  decide

/-! ## PostProduct -/

/-- The checks of `PostProduct` make no repository call. -/
theorem calls_postProductChecks (g : Goods) : calls (postProductChecks g) = [] := by
  unfold postProductChecks
  by_cases hp : g.Price ≤ 0 <;> by_cases hq : g.Quantity ≤ 0 <;>
    simp [hp, hq, calls, envelope]

/-- The responses written by the checks of `PostProduct`: one 416 envelope per
violated check, price first. -/
theorem responses_postProductChecks (g : Goods) :
    responses (postProductChecks g) =
      (if g.Price ≤ 0 then
          [⟨StatusRequestedRangeNotSatisfiable, Body.answer ⟨"error", "price cant be <= 0"⟩⟩]
        else []) ++
      (if g.Quantity ≤ 0 then
          [⟨StatusRequestedRangeNotSatisfiable, Body.answer ⟨"error", "quantity cant be <= 0"⟩⟩]
        else []) := by
  unfold postProductChecks
  by_cases hp : g.Price ≤ 0 <;> by_cases hq : g.Quantity ≤ 0 <;>
    simp [hp, hq, responses, envelope]

/-- Calls of a concatenated log. -/
theorem calls_append (l1 l2 : List Event) : calls (l1 ++ l2) = calls l1 ++ calls l2 := by
  induction l1 with
  | nil => rfl
  | cons e es ih => cases e <;> simp [calls, ih]

/-- Responses of a concatenated log. -/
theorem responses_append (l1 l2 : List Event) :
    responses (l1 ++ l2) = responses l1 ++ responses l2 := by
  induction l1 with
  | nil => rfl
  | cons e es ih => cases e <;> simp [responses, ih]

/-- The log of `PostProduct` for a parsed body: the checks, the single
`CreateProduct` call with the decoded payload, and the final write, which is
the 500 envelope on error and otherwise 200 with the record as `CreateProduct`
left it. -/
theorem PostProduct_log {σ : Type} (a : Application σ) (gCtx : Context) (s : σ) (g : Goods)
    (hbody : gCtx.jsonGoods = some g) :
    (a.PostProduct gCtx s).log =
      postProductChecks g ++
        [Event.call (Call.CreateProduct g),
          match (a.repo.CreateProduct g s).1.2 with
          | some _ => envelope StatusInternalServerError "error" "cant create product row"
          | none => Event.write ⟨StatusOK, Body.goods (a.repo.CreateProduct g s).1.1⟩] ∧
    (a.PostProduct gCtx s).outcome = Outcome.returned := by
  unfold Application.PostProduct
  rw [hbody]
  dsimp only
  rcases hc : a.repo.CreateProduct g s with ⟨⟨g1, e⟩, s1⟩
  cases e <;> exact ⟨rfl, rfl⟩

/-- The store after `PostProduct` for a parsed body is the store that
`a.repo.CreateProduct`, applied to the decoded payload and the initial store,
hands back. -/
theorem PostProduct_store {σ : Type} (a : Application σ) (gCtx : Context) (s : σ) (g : Goods)
    (hbody : gCtx.jsonGoods = some g) :
    (a.PostProduct gCtx s).store = (a.repo.CreateProduct g s).2 := by
  unfold Application.PostProduct
  rw [hbody]
  dsimp only
  rcases hc : a.repo.CreateProduct g s with ⟨⟨g1, e⟩, s1⟩
  cases e <;> rfl

/-- C5: when the body decodes to a Goods with `Price ≤ 0` or `Quantity ≤ 0`,
`PostProduct` writes one 416 "error" envelope for each violated check (so at
least one) and does not stop there: it applies the repository's
`CreateProduct` to the decoded payload exactly once, as its only repository
call, after those envelopes. The run ends in the store that this application
of `CreateProduct` returns, and the last write is decided by its result (500
envelope on error, otherwise 200 with the record it left). -/
theorem C5_PostProduct_validation_non_blocking {σ : Type} (a : Application σ)
    (gCtx : Context) (s : σ) (g : Goods) (hbody : gCtx.jsonGoods = some g)
    (hbad : g.Price ≤ 0 ∨ g.Quantity ≤ 0) :
    (g.Price ≤ 0 →
      (⟨StatusRequestedRangeNotSatisfiable, Body.answer ⟨"error", "price cant be <= 0"⟩⟩ :
        Response) ∈ responses (a.PostProduct gCtx s).log) ∧
    (g.Quantity ≤ 0 →
      (⟨StatusRequestedRangeNotSatisfiable, Body.answer ⟨"error", "quantity cant be <= 0"⟩⟩ :
        Response) ∈ responses (a.PostProduct gCtx s).log) ∧
    ((responses (a.PostProduct gCtx s).log).filter
        (fun r => decide (r.status = StatusRequestedRangeNotSatisfiable))).length =
      (if g.Price ≤ 0 then 1 else 0) + (if g.Quantity ≤ 0 then 1 else 0) ∧
    1 ≤ ((responses (a.PostProduct gCtx s).log).filter
        (fun r => decide (r.status = StatusRequestedRangeNotSatisfiable))).length ∧
    calls (a.PostProduct gCtx s).log = [Call.CreateProduct g] ∧
    (a.PostProduct gCtx s).log =
      postProductChecks g ++
        [Event.call (Call.CreateProduct g),
          match (a.repo.CreateProduct g s).1.2 with
          | some _ => envelope StatusInternalServerError "error" "cant create product row"
          | none => Event.write ⟨StatusOK, Body.goods (a.repo.CreateProduct g s).1.1⟩] ∧
    (a.PostProduct gCtx s).store = (a.repo.CreateProduct g s).2 ∧
    (a.PostProduct gCtx s).outcome = Outcome.returned := by
  obtain ⟨hlog, hout⟩ := PostProduct_log a gCtx s g hbody
  have hstore := PostProduct_store a gCtx s g hbody
  refine ⟨?_, ?_, ?_, ?_, ?_, hlog, hstore, hout⟩
  all_goals rw [hlog]
  · intro hp
    rw [responses_append, responses_postProductChecks]
    simp [hp]
  · intro hq
    rw [responses_append, responses_postProductChecks]
    simp [hq]
  · rw [responses_append, responses_postProductChecks]
    by_cases hp : g.Price ≤ 0 <;> by_cases hq : g.Quantity ≤ 0 <;>
      cases (a.repo.CreateProduct g s).1.2 <;>
      simp [hp, hq, responses, envelope, StatusRequestedRangeNotSatisfiable,
        StatusInternalServerError, StatusOK]
  · rw [responses_append, responses_postProductChecks]
    by_cases hp : g.Price ≤ 0 <;> by_cases hq : g.Quantity ≤ 0 <;>
      cases (a.repo.CreateProduct g s).1.2 <;>
      simp [hp, hq, responses, envelope, StatusRequestedRangeNotSatisfiable,
        StatusInternalServerError, StatusOK]
    all_goals omega
  · rw [calls_append, calls_postProductChecks]
    cases (a.repo.CreateProduct g s).1.2 <;> simp [calls, envelope]

/-- C5 at a body with `Price = -3` and `Quantity = 0` and the repository that
keeps the created records: both checks are violated, `CreateProduct` is still
applied, and the record with the non-positive price and quantity ends up in
the store. -/
theorem C5_PostProduct_validation_non_blocking_witness :
    ((ctxGoods [] ⟨0, -3, 0, "tea"⟩).jsonGoods = some ⟨0, -3, 0, "tea"⟩ ∧
      ((⟨0, -3, 0, "tea"⟩ : Goods).Price ≤ 0 ∨ (⟨0, -3, 0, "tea"⟩ : Goods).Quantity ≤ 0)) ∧
    calls ((⟨memRepo⟩ : Application (List Goods)).PostProduct
        (ctxGoods [] ⟨0, -3, 0, "tea"⟩) []).log
      = [Call.CreateProduct ⟨0, -3, 0, "tea"⟩] ∧
    ((responses ((⟨memRepo⟩ : Application (List Goods)).PostProduct
        (ctxGoods [] ⟨0, -3, 0, "tea"⟩) []).log).filter
        (fun r => decide (r.status = StatusRequestedRangeNotSatisfiable))).length = 2 ∧
    ((⟨memRepo⟩ : Application (List Goods)).PostProduct
        (ctxGoods [] ⟨0, -3, 0, "tea"⟩) []).store = [⟨1, -3, 0, "tea"⟩] ∧
    ((⟨memRepo⟩ : Application (List Goods)).PostProduct
        (ctxGoods [] ⟨0, -3, 0, "tea"⟩) []).log =
      [envelope 416 "error" "price cant be <= 0", envelope 416 "error" "quantity cant be <= 0",
        Event.call (Call.CreateProduct ⟨0, -3, 0, "tea"⟩),
        Event.write ⟨200, Body.goods ⟨1, -3, 0, "tea"⟩⟩] :=
  ⟨⟨rfl, Or.inl (by decide)⟩,
    (C5_PostProduct_validation_non_blocking ⟨memRepo⟩ (ctxGoods [] ⟨0, -3, 0, "tea"⟩) []
      ⟨0, -3, 0, "tea"⟩ rfl (Or.inl (by decide))).2.2.2.2.1,
    (C5_PostProduct_validation_non_blocking ⟨memRepo⟩ (ctxGoods [] ⟨0, -3, 0, "tea"⟩) []
      ⟨0, -3, 0, "tea"⟩ rfl (Or.inl (by decide))).2.2.1,
    (C5_PostProduct_validation_non_blocking ⟨memRepo⟩ (ctxGoods [] ⟨0, -3, 0, "tea"⟩) []
      ⟨0, -3, 0, "tea"⟩ rfl (Or.inl (by decide))).2.2.2.2.2.2.1.trans (by decide),
    (C5_PostProduct_validation_non_blocking ⟨memRepo⟩ (ctxGoods [] ⟨0, -3, 0, "tea"⟩) []
      ⟨0, -3, 0, "tea"⟩ rfl (Or.inl (by decide))).2.2.2.2.2.1.trans (by decide)⟩

/-- C6 as stated fails: for the body `Price = 100, Quantity = 5` (identifier
still `0`) and a repository whose `CreateProduct` succeeds and assigns the
identifier `42` through the pointer, the single 200 response carries the
record with identifier `42`, not the decoded payload. -/
theorem C6_PostProduct_echo_counterexample :
    (ctxGoods [] ⟨0, 100, 5, "tea"⟩).jsonGoods = some ⟨0, 100, 5, "tea"⟩ ∧
    (⟨0, 100, 5, "tea"⟩ : Goods).Price > 0 ∧ (⟨0, 100, 5, "tea"⟩ : Goods).Quantity > 0 ∧
    (okRepo.CreateProduct ⟨0, 100, 5, "tea"⟩ ()).1.2 = none ∧
    responses ((⟨okRepo⟩ : Application Unit).PostProduct (ctxGoods [] ⟨0, 100, 5, "tea"⟩) ()).log
      = [⟨StatusOK, Body.goods ⟨42, 100, 5, "tea"⟩⟩] ∧
    responses ((⟨okRepo⟩ : Application Unit).PostProduct (ctxGoods [] ⟨0, 100, 5, "tea"⟩) ()).log
      ≠ [⟨StatusOK, Body.goods ⟨0, 100, 5, "tea"⟩⟩] := by
  decide

/-- C6 (amended): when the body decodes to a Goods with `Price > 0` and
`Quantity > 0` and `CreateProduct` returns no error, `PostProduct` returns
having written exactly one response, status 200, whose body is the record as
`CreateProduct` left it; in particular the body equals the decoded payload
whenever `CreateProduct` leaves the record unchanged. `CreateProduct` is the
only repository call and receives the decoded payload. -/
theorem C6_PostProduct_success_body {σ : Type} (a : Application σ) (gCtx : Context) (s : σ)
    (g : Goods) (hbody : gCtx.jsonGoods = some g) (hp : g.Price > 0) (hq : g.Quantity > 0)
    (hok : (a.repo.CreateProduct g s).1.2 = none) :
    responses (a.PostProduct gCtx s).log =
      [⟨StatusOK, Body.goods (a.repo.CreateProduct g s).1.1⟩] ∧
    ((a.repo.CreateProduct g s).1.1 = g →
      responses (a.PostProduct gCtx s).log = [⟨StatusOK, Body.goods g⟩]) ∧
    calls (a.PostProduct gCtx s).log = [Call.CreateProduct g] ∧
    (a.PostProduct gCtx s).outcome = Outcome.returned := by
  obtain ⟨hlog, hout⟩ := PostProduct_log a gCtx s g hbody
  have hp1 : ¬ g.Price ≤ 0 := not_le.mpr hp
  have hq1 : ¬ g.Quantity ≤ 0 := not_le.mpr hq
  have hresp : responses (a.PostProduct gCtx s).log =
      [⟨StatusOK, Body.goods (a.repo.CreateProduct g s).1.1⟩] := by
    rw [hlog, responses_append, responses_postProductChecks, hok]
    simp [hp1, hq1, responses]
  refine ⟨hresp, ?_, ?_, hout⟩
  · intro hsame
    rw [hresp, hsame]
  · rw [hlog, calls_append, calls_postProductChecks, hok]
    simp [calls]

/-- C6 (amended) at the body `Price = 100, Quantity = 5` with the repository
that assigns identifier `42`. -/
theorem C6_PostProduct_success_body_witness :
    ((⟨0, 100, 5, "tea"⟩ : Goods).Price > 0 ∧ (⟨0, 100, 5, "tea"⟩ : Goods).Quantity > 0) ∧
    responses ((⟨okRepo⟩ : Application Unit).PostProduct (ctxGoods [] ⟨0, 100, 5, "tea"⟩) ()).log
      = [⟨StatusOK, Body.goods (okRepo.CreateProduct ⟨0, 100, 5, "tea"⟩ ()).1.1⟩] :=
  ⟨⟨by decide, by decide⟩,
    (C6_PostProduct_success_body ⟨okRepo⟩ (ctxGoods [] ⟨0, 100, 5, "tea"⟩) ()
      ⟨0, 100, 5, "tea"⟩ rfl (by decide) (by decide) rfl).1⟩

/-! ## GetBasket -/

/-- C7: when the body decodes to a user and `GetIdByLogin` returns an error,
`GetBasket` returns having written exactly one response, status 403 (not 404)
with Status "error"; its only repository call is `GetIdByLogin` with the
decoded login, so the repository's `GetBasket` is never called. -/
theorem C7_GetBasket_unknown_login_forbidden {σ : Type} (a : Application σ) (gCtx : Context)
    (s : σ) (u : Users) (msg : String) (hbody : gCtx.jsonUsers = some u)
    (herr : (a.repo.GetIdByLogin u.Login s).1.2 = some msg) :
    responses (a.GetBasket gCtx s).log =
      [⟨StatusForbidden, Body.answer ⟨"error", "cant find user with this login"⟩⟩] ∧
    StatusForbidden = 403 ∧
    calls (a.GetBasket gCtx s).log = [Call.GetIdByLogin u.Login] ∧
    (∀ id : Nat, Event.call (Call.GetBasket id) ∉ (a.GetBasket gCtx s).log) ∧
    (a.GetBasket gCtx s).outcome = Outcome.returned := by
  unfold Application.GetBasket
  rw [hbody]
  dsimp only
  rcases hc : a.repo.GetIdByLogin u.Login s with ⟨⟨id, e⟩, s1⟩
  rw [hc] at herr
  dsimp only at herr
  subst herr
  simp [responses, calls, envelope, StatusForbidden]

/-- C7 at the login "ghost" with a repository that knows no user. -/
theorem C7_GetBasket_unknown_login_forbidden_witness :
    (failRepo.GetIdByLogin "ghost" ()).1.2 = some "record not found" ∧
    responses ((⟨failRepo⟩ : Application Unit).GetBasket (ctxUsers ⟨0, "ghost"⟩) ()).log =
      [⟨StatusForbidden, Body.answer ⟨"error", "cant find user with this login"⟩⟩] ∧
    calls ((⟨failRepo⟩ : Application Unit).GetBasket (ctxUsers ⟨0, "ghost"⟩) ()).log
      = [Call.GetIdByLogin "ghost"] :=
  ⟨rfl,
    (C7_GetBasket_unknown_login_forbidden ⟨failRepo⟩ (ctxUsers ⟨0, "ghost"⟩) () ⟨0, "ghost"⟩
      "record not found" rfl rfl).1,
    (C7_GetBasket_unknown_login_forbidden ⟨failRepo⟩ (ctxUsers ⟨0, "ghost"⟩) () ⟨0, "ghost"⟩
      "record not found" rfl rfl).2.2.1⟩

/-- C9 as stated fails: for a request whose body does not parse, `BindJSON`
aborts the request with 400 and the handler then writes its envelope passing
416, so the response has status 400, and neither that status nor the status
the handler passes is one of 200, 403, 500. -/
theorem C9_GetBasket_status_counterexample :
    ((⟨okRepo⟩ : Application Unit).GetBasket (ctxParams []) ()).log =
      [Event.abort 400, Event.write ⟨416, Body.answer ⟨"error", "cant parse json"⟩⟩] ∧
    wireStatus ((⟨okRepo⟩ : Application Unit).GetBasket (ctxParams []) ()).log = some 400 ∧
    ¬ (∀ st, wireStatus ((⟨okRepo⟩ : Application Unit).GetBasket (ctxParams []) ()).log
          = some st → st = 200 ∨ st = 403 ∨ st = 500) ∧
    ¬ (∀ r ∈ responses ((⟨okRepo⟩ : Application Unit).GetBasket (ctxParams []) ()).log,
        r.status = 200 ∨ r.status = 403 ∨ r.status = 500) := by
  refine ⟨by decide, by decide, ?_, by decide⟩
  intro h
  have h400 := h 400 (by decide)
  revert h400
  decide

/-- C9 (amended): for every request and every repository behaviour, the
response of `GetBasket` has exactly one status, and it is 200, 400, 403 or 500.
It is 400 exactly when the body does not parse: `BindJSON` has then aborted
the request with 400 before the handler writes its single envelope, to which
it passes 416 without effect on the status. For a body that parses the handler
makes exactly one write, whose status is the status of the response, and it is
200, 403 or 500. -/
theorem C9_GetBasket_status_codes {σ : Type} (a : Application σ) (gCtx : Context) (s : σ) :
    ∃ st : Nat, wireStatus (a.GetBasket gCtx s).log = some st ∧
      (st = 200 ∨ st = 400 ∨ st = 403 ∨ st = 500) ∧
      (st = 400 ↔ gCtx.jsonUsers = none) ∧
      (gCtx.jsonUsers = none →
        (a.GetBasket gCtx s).log =
          [Event.abort StatusBadRequest,
            Event.write ⟨StatusRequestedRangeNotSatisfiable,
              Body.answer ⟨"error", "cant parse json"⟩⟩]) ∧
      (gCtx.jsonUsers ≠ none →
        (st = 200 ∨ st = 403 ∨ st = 500) ∧
        (∃ b : Body, responses (a.GetBasket gCtx s).log = [⟨st, b⟩]) ∧
        ∀ code : Nat, Event.abort code ∉ (a.GetBasket gCtx s).log) := by
  unfold Application.GetBasket
  cases hb : gCtx.jsonUsers with
  | none =>
    exact ⟨400, rfl, by decide, by simp, fun _ => rfl, fun h => absurd rfl h⟩
  | some u =>
    dsimp only
    rcases hc : a.repo.GetIdByLogin u.Login s with ⟨⟨id, e⟩, s1⟩
    cases e with
    | some m =>
      exact ⟨403, rfl, by decide, by simp, by simp,
        fun _ => ⟨by decide, ⟨_, rfl⟩, by simp [envelope]⟩⟩
    | none =>
      dsimp only
      rcases hg : a.repo.GetBasket id s1 with ⟨⟨bs, e2⟩, s2⟩
      cases e2 with
      | some m =>
        exact ⟨500, rfl, by decide, by simp, by simp,
          fun _ => ⟨by decide, ⟨_, rfl⟩, by simp [envelope]⟩⟩
      | none =>
        exact ⟨200, rfl, by decide, by simp, by simp,
          fun _ => ⟨by decide, ⟨_, rfl⟩, by simp⟩⟩

/-- C9 (amended) at a request whose body decodes to the login "ann" and at a
request whose body does not parse. -/
theorem C9_GetBasket_status_codes_witness :
    ((ctxUsers ⟨0, "ann"⟩).jsonUsers ≠ none ∧
      wireStatus ((⟨okRepo⟩ : Application Unit).GetBasket (ctxUsers ⟨0, "ann"⟩) ()).log
        = some 200) ∧
    ((ctxParams []).jsonUsers = none ∧
      wireStatus ((⟨okRepo⟩ : Application Unit).GetBasket (ctxParams []) ()).log = some 400) ∧
    (∃ st : Nat,
      wireStatus ((⟨okRepo⟩ : Application Unit).GetBasket (ctxUsers ⟨0, "ann"⟩) ()).log
        = some st ∧ (st = 200 ∨ st = 403 ∨ st = 500)) ∧
    ((⟨okRepo⟩ : Application Unit).GetBasket (ctxParams []) ()).log =
      [Event.abort StatusBadRequest,
        Event.write ⟨StatusRequestedRangeNotSatisfiable,
          Body.answer ⟨"error", "cant parse json"⟩⟩] :=
  ⟨⟨by decide, by decide⟩, ⟨rfl, by decide⟩,
    (C9_GetBasket_status_codes ⟨okRepo⟩ (ctxUsers ⟨0, "ann"⟩) ()).elim
      (fun st h => ⟨st, h.1, (h.2.2.2.2 (by decide)).1⟩),
    (C9_GetBasket_status_codes ⟨okRepo⟩ (ctxParams []) ()).elim
      (fun _ h => h.2.2.2.1 rfl)⟩

/-! ## GetObjectsByFloor and GetObjectById -/

/-- C8: whenever the `floor` segment does not parse as an integer,
`GetObjectsByFloor` returns having written exactly one response, 500 with an
envelope whose Status is "error", and makes no repository call; whenever the
`id` segment does not parse, `GetObjectById` does the same. The empty string
is such a segment. -/
theorem C8_non_integer_segment_server_error {σ : Type} (a : Application σ) (gCtx : Context)
    (s : σ) :
    (Atoi (gCtx.Param "floor") = none →
      (a.GetObjectsByFloor gCtx s).log =
          [Event.write ⟨StatusInternalServerError,
            Body.answer ⟨"error", "cant convert id to int"⟩⟩] ∧
        responses (a.GetObjectsByFloor gCtx s).log =
          [⟨500, Body.answer ⟨"error", "cant convert id to int"⟩⟩] ∧
        calls (a.GetObjectsByFloor gCtx s).log = [] ∧
        (a.GetObjectsByFloor gCtx s).store = s ∧
        (a.GetObjectsByFloor gCtx s).outcome = Outcome.returned) ∧
    (Atoi (gCtx.Param "id") = none →
      (a.GetObjectById gCtx s).log =
          [Event.write ⟨StatusInternalServerError,
            Body.answer ⟨"error", "cant convert id to int"⟩⟩] ∧
        responses (a.GetObjectById gCtx s).log =
          [⟨500, Body.answer ⟨"error", "cant convert id to int"⟩⟩] ∧
        calls (a.GetObjectById gCtx s).log = [] ∧
        (a.GetObjectById gCtx s).store = s ∧
        (a.GetObjectById gCtx s).outcome = Outcome.returned) ∧
    Atoi "" = none := by
  refine ⟨?_, ?_, Atoi_empty⟩
  · intro h
    simp [Application.GetObjectsByFloor, h, responses, calls, envelope,
      StatusInternalServerError]
  · intro h
    simp [Application.GetObjectById, h, responses, calls, envelope,
      StatusInternalServerError]

/-- C8 at the segments `floor = "2nd"` and `id = ""`, with a repository that
would answer every call. -/
theorem C8_non_integer_segment_server_error_witness :
    (Atoi ((ctxParams [("floor", "2nd"), ("id", "")]).Param "floor") = none ∧
      Atoi ((ctxParams [("floor", "2nd"), ("id", "")]).Param "id") = none) ∧
    responses ((⟨okRepo⟩ : Application Unit).GetObjectsByFloor
        (ctxParams [("floor", "2nd"), ("id", "")]) ()).log =
      [⟨500, Body.answer ⟨"error", "cant convert id to int"⟩⟩] ∧
    responses ((⟨okRepo⟩ : Application Unit).GetObjectById
        (ctxParams [("floor", "2nd"), ("id", "")]) ()).log =
      [⟨500, Body.answer ⟨"error", "cant convert id to int"⟩⟩] :=
  ⟨⟨by decide, by decide⟩,
    ((C8_non_integer_segment_server_error ⟨okRepo⟩
      (ctxParams [("floor", "2nd"), ("id", "")]) ()).1 (by decide)).2.1,
    ((C8_non_integer_segment_server_error ⟨okRepo⟩
      (ctxParams [("floor", "2nd"), ("id", "")]) ()).2.1 (by decide)).2.1⟩

/-- C10: when the `id` segment parses to a negative integer `n`,
`GetObjectById` does not reject it: its log is the call
`GetProductByID (n mod 2^64)`, where `n mod 2^64 = n + 2^64`, followed by one
response that is a function of that call's result alone (500 envelope when it
returns an error, 200 with the product otherwise). -/
theorem C10_GetObjectById_negative_id_wraps {σ : Type} (a : Application σ) (gCtx : Context)
    (s : σ) (n : Int) (hid : Atoi (gCtx.Param "id") = some n) (hneg : n < 0) :
    (a.GetObjectById gCtx s).log =
      [Event.call (Call.GetProductByID (n % (2 : Int) ^ 64).toNat),
        match (a.repo.GetProductByID (n % (2 : Int) ^ 64).toNat s).1 with
        | (_, some _) => envelope StatusInternalServerError "error" "cant get product by id"
        | (product, none) => Event.write ⟨StatusOK, Body.goods product⟩] ∧
    (((n % (2 : Int) ^ 64).toNat : Nat) : Int) = n + (2 : Int) ^ 64 ∧
    (a.GetObjectById gCtx s).store = (a.repo.GetProductByID (n % (2 : Int) ^ 64).toNat s).2 ∧
    (a.GetObjectById gCtx s).outcome = Outcome.returned := by
  have hwrap := uint_of_neg n (Atoi_range _ n hid).1 hneg
  unfold uint at hwrap
  refine ⟨?_, hwrap, ?_, ?_⟩
  all_goals
    simp only [Application.GetObjectById, hid, uint]
    rcases hg : a.repo.GetProductByID (n % (2 : Int) ^ 64).toNat s with ⟨⟨p, e⟩, s1⟩
    cases e <;> rfl

/-- C10 at the segment `id = "-1"`: the repository is asked for `2^64 - 1`. -/
theorem C10_GetObjectById_negative_id_wraps_witness :
    (Atoi ((ctxParams [("id", "-1")]).Param "id") = some (-1) ∧ (-1 : Int) < 0) ∧
    ((⟨okRepo⟩ : Application Unit).GetObjectById (ctxParams [("id", "-1")]) ()).log =
      [Event.call (Call.GetProductByID 18446744073709551615),
        Event.write ⟨StatusOK, Body.goods ⟨18446744073709551615, 10, 1, "item"⟩⟩] :=
  ⟨⟨by decide, by decide⟩,
    (C10_GetObjectById_negative_id_wraps ⟨okRepo⟩ (ctxParams [("id", "-1")]) () (-1)
      (by decide) (by decide)).1.trans (by decide)⟩

end Hac
